import Mathlib

/-!
Verification of the authentication core of a FastAPI user-management
backend: the Token Service (`app/core/security.py`), the Auth Gate
(`app/core/dependencies.py`), the Credential Hasher wrappers, the user
service (`app/services/user.py`) and the auth/user handlers
(`app/api/auth.py`, `app/api/users.py`).  Python functions are embedded
as total Lean functions; raising an exception is modelled by returning
an `Except.error`; the wall clock (`datetime.utcnow()`) is an explicit
`now : Nat` argument (Unix seconds); database sessions are explicit
`List User` values threaded through the calls.
-/

/-- Configuration from `app/core/config.py` (`Settings`).  Only the fields
the authentication core reads are embedded.  `SECRET_KEY` is a required
environment value with no default, so it is modelled as an arbitrary fixed
server secret; the TTL fields keep the source defaults (30 minutes,
7 days). -/
structure Settings where
  SECRET_KEY : String
  ALGORITHM : String
  ACCESS_TOKEN_EXPIRE_MINUTES : Nat
  REFRESH_TOKEN_EXPIRE_DAYS : Nat
deriving DecidableEq, Repr

/-- The single settings instance created at import time in
`app/core/config.py`. -/
def settings : Settings :=
  { SECRET_KEY := "server-secret", ALGORITHM := "HS256",
    ACCESS_TOKEN_EXPIRE_MINUTES := 30, REFRESH_TOKEN_EXPIRE_DAYS := 7 }

/-- A decoded JWT claims payload.  `sub` and `type` are optional claims (a
payload may omit either); `exp` is a Unix timestamp in seconds. -/
structure Payload where
  sub : Option String
  type : Option String
  exp : Nat
deriving DecidableEq, Repr

/-- Modelled from the spec: token strings produced and consumed by the
external `python-jose` library (not part of this repository).  A token
string is either a well-formed JWT signed with some key, or an arbitrary
malformed/tampered string that decodes to nothing. -/
inductive TokenStr where
  | signed (payload : Payload) (key : String)
  | malformed (s : String)
deriving DecidableEq, Repr

/-- The `jose.jwt.JWTError` exception raised by `jwt.decode`. -/
inductive JWTError where
  | error (msg : String)
deriving DecidableEq, Repr

/-- Modelled from the spec: `jose.jwt.encode(claims, key, algorithm)` signs
the claims with the server secret using a symmetric scheme and returns the
encoded token. -/
def jwt.encode (payload : Payload) (key : String) : TokenStr :=
  TokenStr.signed payload key

/-- Modelled from the spec: `jose.jwt.decode(token, key, algorithms)`
decodes and checks the signature and the `exp` claim — "returns invalid if
signature fails, if `exp <= now`" — raising `JWTError` (modelled as
`Except.error`) on malformed input, a bad signature, or an expired token.
`now` makes the library's clock read explicit. -/
def jwt.decode (token : TokenStr) (key : String) (now : Nat) :
    Except JWTError Payload :=
  match token with
  | TokenStr.malformed _ => Except.error (JWTError.error "Error decoding token")
  | TokenStr.signed p k =>
      if k ≠ key then Except.error (JWTError.error "Signature verification failed")
      else if p.exp ≤ now then Except.error (JWTError.error "Signature has expired")
      else Except.ok p

/-- `create_access_token` from `app/core/security.py`: encodes
`{exp, sub, type: "access"}` signed with `settings.SECRET_KEY`, with expiry
`now + expires_delta` when a delta is passed, else
`now + ACCESS_TOKEN_EXPIRE_MINUTES` (in seconds). -/
def create_access_token (subject : String) (expires_delta : Option Nat)
    (now : Nat) : TokenStr :=
  let expire : Nat :=
    match expires_delta with
    | some d => now + d
    | none => now + settings.ACCESS_TOKEN_EXPIRE_MINUTES * 60
  jwt.encode { sub := some subject, type := some "access", exp := expire }
    settings.SECRET_KEY

/-- `create_refresh_token` from `app/core/security.py`: encodes
`{exp, sub, type: "refresh"}` with expiry
`now + REFRESH_TOKEN_EXPIRE_DAYS` (in seconds). -/
def create_refresh_token (subject : String) (now : Nat) : TokenStr :=
  let expire : Nat := now + settings.REFRESH_TOKEN_EXPIRE_DAYS * 86400
  jwt.encode { sub := some subject, type := some "refresh", exp := expire }
    settings.SECRET_KEY

/-- `verify_token` from `app/core/security.py`: decodes the token, returns
`none` on any `JWTError`, when the `sub` claim is absent, or when the
`type` claim differs from the expected `token_type`; otherwise returns the
subject. -/
def verify_token (token : TokenStr) (token_type : String) (now : Nat) :
    Option String :=
  match jwt.decode token settings.SECRET_KEY now with
  | Except.error _ => none
  | Except.ok payload =>
      match payload.sub with
      | none => none
      | some token_sub =>
          if payload.type ≠ some token_type then none else some token_sub

/-- C1: for every token string `t`, expected type `e` and time `now`,
`verify_token` never raises (it is a total function into `Option`): it
returns subject `s` exactly when `t` is signed with the server secret, its
expiry is strictly after `now`, its `sub` claim is present and equals `s`,
and its `type` claim equals `e`; in every other case — malformed or
tampered input included — it returns the invalid sentinel `none`. -/
theorem verify_token_characterization (t : TokenStr) (e : String) (now : Nat)
    (s : String) :
    verify_token t e now = some s ↔
      ∃ p : Payload, t = TokenStr.signed p settings.SECRET_KEY ∧
        now < p.exp ∧ p.sub = some s ∧ p.type = some e := by
  unfold verify_token jwt.decode
  cases t with
  | malformed str => simp
  | signed p k =>
      by_cases hk : k = settings.SECRET_KEY
      · subst hk
        by_cases hexp : p.exp ≤ now
        · simp [hexp]
        · cases hsub : p.sub with
          | none => simp [hexp, hsub]
          | some ts =>
              by_cases hty : p.type = some e
              · simp [hexp, hsub, hty]
                exact fun _ => Nat.not_le.mp hexp
              · simp [hexp, hsub, hty]
      · simp [hk]

/-- C2: a token issued by `create_access_token` is rejected by
verification with expected type `"refresh"` at every time strictly before
that token's expiry `t0 + ACCESS_TTL`, and a token issued by
`create_refresh_token` is rejected by verification with expected type
`"access"` at every time strictly before that token's expiry
`t0 + REFRESH_TTL`. -/
theorem token_type_confusion_rejected (subject : String) (t0 t : Nat) :
    (t < t0 + settings.ACCESS_TOKEN_EXPIRE_MINUTES * 60 →
      verify_token (create_access_token subject none t0) "refresh" t = none) ∧
    (t < t0 + settings.REFRESH_TOKEN_EXPIRE_DAYS * 86400 →
      verify_token (create_refresh_token subject t0) "access" t = none) := by
  constructor
  · intro h1
    have hneg : ¬(t0 + settings.ACCESS_TOKEN_EXPIRE_MINUTES * 60 ≤ t) :=
      Nat.not_le.mpr h1
    simp [verify_token, create_access_token, jwt.encode, jwt.decode, hneg]
  · intro h2
    have hneg : ¬(t0 + settings.REFRESH_TOKEN_EXPIRE_DAYS * 86400 ≤ t) :=
      Nat.not_le.mpr h2
    simp [verify_token, create_refresh_token, jwt.encode, jwt.decode, hneg]

/-- Witness for C2 at subject `"1"`, issue time `0`: the access token is
rejected as a refresh token at `10`, and the refresh token is rejected as
an access token at `3600` — one hour in, past the 30-minute access window
yet well before the refresh token's 7-day expiry. -/
theorem token_type_confusion_rejected_witness :
    verify_token (create_access_token "1" none 0) "refresh" 10 = none ∧
    verify_token (create_refresh_token "1" 0) "access" 3600 = none :=
  ⟨(token_type_confusion_rejected "1" 0 10).1 (by decide),
   (token_type_confusion_rejected "1" 0 3600).2 (by decide)⟩

/-- C3: `verify_token` on a token issued by `create_access_token` at `t0`
with expected type `"access"` returns the subject at every time strictly
before `t0 + ACCESS_TTL` and returns `none` at every time at or after
`t0 + ACCESS_TTL`. -/
theorem access_token_round_trip (sub : String) (t0 t : Nat) :
    (t < t0 + settings.ACCESS_TOKEN_EXPIRE_MINUTES * 60 →
      verify_token (create_access_token sub none t0) "access" t = some sub) ∧
    (t0 + settings.ACCESS_TOKEN_EXPIRE_MINUTES * 60 ≤ t →
      verify_token (create_access_token sub none t0) "access" t = none) := by
  constructor
  · intro h
    have hneg : ¬(t0 + settings.ACCESS_TOKEN_EXPIRE_MINUTES * 60 ≤ t) :=
      Nat.not_le.mpr h
    simp [verify_token, create_access_token, jwt.encode, jwt.decode, hneg]
  · intro h
    simp [verify_token, create_access_token, jwt.encode, jwt.decode, h]

/-- Witness for C3 at subject `"1"`, issue time `0`: verification at `10`
(inside the 1800-second window) returns the subject, verification at
`1800` returns `none`. -/
theorem access_token_round_trip_witness :
    verify_token (create_access_token "1" none 0) "access" 10 = some "1" ∧
    verify_token (create_access_token "1" none 0) "access" 1800 = none :=
  ⟨(access_token_round_trip "1" 0 10).1 (by decide),
   (access_token_round_trip "1" 0 1800).2 (by decide)⟩

/-- Modelled from the spec: digests produced by the external `passlib`
`CryptContext` (bcrypt).  The digest space splits into digests the hasher
produced — recording the hashed password and the random salt drawn for
that call — and malformed strings that are no hash of any password. -/
inductive Digest where
  | bcrypt (password : String) (salt : Nat)
  | malformed (s : String)
deriving DecidableEq, Repr

/-- `verify_password` from `app/core/security.py`, delegating to
`pwd_context.verify`.  Modelled from the spec: "true iff `password` was
the input that produced `digest`; never throws on malformed digest —
returns false". -/
def verify_password (plain_password : String) (hashed_password : Digest) :
    Bool :=
  match hashed_password with
  | Digest.bcrypt p _ => plain_password == p
  | Digest.malformed _ => false

/-- `get_password_hash` from `app/core/security.py`, delegating to
`pwd_context.hash`, which draws a fresh random salt on every call; the
salt drawn is an explicit argument. -/
def get_password_hash (password : String) (salt : Nat) : Digest :=
  Digest.bcrypt password salt

/-- Modelled from the spec: the ORM model `app/models/user.py` is not
among the sources; its columns follow spec §3 — integer `id`, unique
`email` and `username`, `hashed_password`, the two flags, and
server-assigned timestamps. -/
structure User where
  id : Int
  email : String
  username : String
  hashed_password : Digest
  is_active : Bool
  is_superuser : Bool
  created_at : Int
  updated_at : Int
deriving DecidableEq, Repr

/-- `UserService.get_by_id`:
`db.query(User).filter(User.id == user_id).first()`. -/
def UserService.get_by_id (db : List User) (user_id : Int) : Option User :=
  db.find? (fun u => u.id == user_id)

/-- `UserService.get_by_email`:
`db.query(User).filter(User.email == email).first()`. -/
def UserService.get_by_email (db : List User) (email : String) : Option User :=
  db.find? (fun u => u.email == email)

/-- `UserService.get_by_username`:
`db.query(User).filter(User.username == username).first()`. -/
def UserService.get_by_username (db : List User) (username : String) :
    Option User :=
  db.find? (fun u => u.username == username)

/-- `UserService.get_all`: `db.query(User).offset(skip).limit(limit).all()`. -/
def UserService.get_all (db : List User) (skip limit : Nat) : List User :=
  (db.drop skip).take limit

/-- `UserService.delete`: returns whether a row was deleted, paired with
the database state after the call. -/
def UserService.delete (db : List User) (user_id : Int) : Bool × List User :=
  match UserService.get_by_id db user_id with
  | none => (false, db)
  | some _ => (true, db.filter (fun u => u.id != user_id))

/-- `UserService.authenticate` from `app/services/user.py`: look the user
up by email, return `None` when missing, return `None` when the password
does not verify, else return the user. -/
def UserService.authenticate (db : List User) (email password : String) :
    Option User :=
  match UserService.get_by_email db email with
  | none => none
  | some user =>
      if !(verify_password password user.hashed_password) then none
      else some user

/-- FastAPI's `HTTPException` as raised by this code: a status code and a
detail message. -/
structure HTTPException where
  status_code : Nat
  detail : String
deriving DecidableEq, Repr

/-- An exception escaping a handler: either a FastAPI `HTTPException` or a
built-in `ValueError` (as raised by `int(...)` on a non-integer string),
which FastAPI does not translate into a gate rejection. -/
inductive PyError where
  | http (e : HTTPException)
  | valueError (msg : String)
deriving DecidableEq, Repr

/-- Accumulator loop reading a run of decimal digits; `none` as soon as a
non-digit appears. -/
def parseDigitsAux : List Char → Nat → Option Nat
  | [], acc => some acc
  | c :: cs, acc =>
      if 48 ≤ c.toNat && c.toNat ≤ 57 then
        parseDigitsAux cs (acc * 10 + (c.toNat - 48))
      else none

/-- A non-empty run of decimal digits read as a number. -/
def parseDigits (cs : List Char) : Option Nat :=
  match cs with
  | [] => none
  | _ => parseDigitsAux cs 0

/-- Python `int(s)` applied to the token subject in `get_current_user`:
parses an optionally signed decimal literal and raises `ValueError`
(modelled as `none`) on any other string. -/
def pyInt (s : String) : Option Int :=
  match s.toList with
  | '-' :: rest => (parseDigits rest).map (fun n => -(n : Int))
  | '+' :: rest => (parseDigits rest).map (fun n => (n : Int))
  | cs => (parseDigits cs).map (fun n => (n : Int))

/-- `get_current_user` from `app/core/dependencies.py`: verify the bearer
credential as an access token; a falsy result (`None` or the empty
string) raises 401; then `int(user_id)` (`ValueError` on a non-integer
subject); then load the user (missing raises 404) and check `is_active`
(inactive raises 403); else return the user. -/
def get_current_user (credentials : TokenStr) (db : List User) (now : Nat) :
    Except PyError User :=
  match verify_token credentials "access" now with
  | none =>
      Except.error (PyError.http
        { status_code := 401, detail := "Invalid or expired access token" })
  | some user_id =>
      if user_id = "" then
        Except.error (PyError.http
          { status_code := 401, detail := "Invalid or expired access token" })
      else
        match pyInt user_id with
        | none => Except.error (PyError.valueError "invalid literal for int")
        | some uid =>
            match UserService.get_by_id db uid with
            | none =>
                Except.error (PyError.http
                  { status_code := 404, detail := "User not found" })
            | some user =>
                if user.is_active = false then
                  Except.error (PyError.http
                    { status_code := 403, detail := "Inactive user" })
                else Except.ok user

/-- `get_current_active_superuser` from `app/core/dependencies.py`: 403
unless the authenticated user has `is_superuser`. -/
def get_current_active_superuser (current_user : User) :
    Except HTTPException User :=
  if current_user.is_superuser = false then
    Except.error
      { status_code := 403,
        detail := "Not enough permissions. Superuser access required." }
  else Except.ok current_user

/-- The handler `list_users` for `GET /users/` in `app/api/users.py`:
admin-gated listing with pagination. -/
def list_users (db : List User) (skip limit : Nat) (current_user : User) :
    Except HTTPException (List User) :=
  match get_current_active_superuser current_user with
  | Except.error e => Except.error e
  | Except.ok _ => Except.ok (UserService.get_all db skip limit)

/-- The handler `delete_user` for `DELETE /users/{user_id}` in
`app/api/users.py`: admin-gated delete, 404 when the id is unknown; on
success (204, no body) the resulting database state is returned. -/
def delete_user (db : List User) (user_id : Int) (current_user : User) :
    Except HTTPException (List User) :=
  match get_current_active_superuser current_user with
  | Except.error e => Except.error e
  | Except.ok _ =>
      match UserService.delete db user_id with
      | (false, _) =>
          Except.error { status_code := 404, detail := "User not found" }
      | (true, db2) => Except.ok db2

/-- A JSON field value in a serialized response body. -/
inductive FieldValue where
  | ofInt (i : Int)
  | ofStr (s : String)
  | ofBool (b : Bool)
deriving DecidableEq, Repr

/-- `LoginResponse` from `app/schemas/auth.py`; the `user` dict is a list
of key/value pairs as the handler builds it. -/
structure LoginResponse where
  access_token : TokenStr
  refresh_token : TokenStr
  token_type : String
  user : List (String × FieldValue)
deriving DecidableEq, Repr

/-- The handler `login` for `POST /auth/login` in `app/api/auth.py`:
authenticate (401 "Incorrect email or password" on `None`), reject
inactive users with 403, else issue the two tokens and return them with
the user dict the handler constructs inline. -/
def login (db : List User) (email password : String) (now : Nat) :
    Except HTTPException LoginResponse :=
  match UserService.authenticate db email password with
  | none =>
      Except.error
        { status_code := 401, detail := "Incorrect email or password" }
  | some user =>
      if user.is_active = false then
        Except.error { status_code := 403, detail := "Inactive user account" }
      else
        Except.ok
          { access_token := create_access_token (toString user.id) none now,
            refresh_token := create_refresh_token (toString user.id) now,
            token_type := "bearer",
            user := [("id", FieldValue.ofInt user.id),
                     ("email", FieldValue.ofStr user.email),
                     ("username", FieldValue.ofStr user.username),
                     ("is_active", FieldValue.ofBool user.is_active),
                     ("is_superuser", FieldValue.ofBool user.is_superuser)] }

/-- The response schema `User` from `app/schemas/user.py` serialized by
pydantic from the ORM attributes: exactly the declared fields of
`UserBase` plus `UserInDBBase` — `hashed_password` is declared only on
`UserInDB`, which no endpoint uses as a response model.  This is the
projection every success response carrying a user goes through
(`POST /users/`, `GET /users/`, `GET/PUT /users/{id}`, `GET/PUT /me`). -/
def userProjection (u : User) : List (String × FieldValue) :=
  [("email", FieldValue.ofStr u.email),
   ("username", FieldValue.ofStr u.username),
   ("is_active", FieldValue.ofBool u.is_active),
   ("is_superuser", FieldValue.ofBool u.is_superuser),
   ("id", FieldValue.ofInt u.id),
   ("created_at", FieldValue.ofInt u.created_at),
   ("updated_at", FieldValue.ofInt u.updated_at)]

/-- `UserUpdate` from `app/schemas/user.py`: every field optional; `none`
models a field absent from the request, which
`model_dump(exclude_unset=True)` drops. -/
structure UserUpdate where
  email : Option String
  username : Option String
  password : Option String
  is_active : Option Bool
  is_superuser : Option Bool
deriving DecidableEq, Repr

/-- The duplicate-email guard inside `UserService.update`: it fires only
when the payload carries an email, that email differs from the user's
current one, and some stored user already has it. -/
def emailDup (db : List User) (db_user : User) (user_in : UserUpdate) :
    Bool :=
  match user_in.email with
  | none => false
  | some e => e != db_user.email && (UserService.get_by_email db e).isSome

/-- The duplicate-username guard inside `UserService.update`, analogous
to the email guard. -/
def usernameDup (db : List User) (db_user : User) (user_in : UserUpdate) :
    Bool :=
  match user_in.username with
  | none => false
  | some un =>
      un != db_user.username && (UserService.get_by_username db un).isSome

/-- The `setattr` loop of `UserService.update`: write every field present
in the payload onto the record, the password as its fresh hash. -/
def applyUpdate (u : User) (user_in : UserUpdate) (salt : Nat) : User :=
  { u with
    email := (user_in.email).getD u.email,
    username := (user_in.username).getD u.username,
    hashed_password :=
      match user_in.password with
      | some pw => get_password_hash pw salt
      | none => u.hashed_password,
    is_active := (user_in.is_active).getD u.is_active,
    is_superuser := (user_in.is_superuser).getD u.is_superuser }

/-- `UserService.update` from `app/services/user.py`.  The result pairs
the outcome — `none` when the id is unknown, the updated record on
success, `Except.error` when a duplicate guard raises `HTTPException` —
with the database state when the call ends.  Mirroring the source order,
both guards run before the `setattr` loop and the commit, so the raising
branches return the state unchanged. -/
def UserService.update (db : List User) (user_id : Int)
    (user_in : UserUpdate) (salt : Nat) :
    Except HTTPException (Option User) × List User :=
  match UserService.get_by_id db user_id with
  | none => (Except.ok none, db)
  | some db_user =>
      if emailDup db db_user user_in then
        (Except.error
          { status_code := 400, detail := "Email already registered" }, db)
      else if usernameDup db db_user user_in then
        (Except.error
          { status_code := 400, detail := "Username already taken" }, db)
      else
        let updated := applyUpdate db_user user_in salt
        (Except.ok (some updated),
         db.map (fun u => if u.id == user_id then updated else u))

/-- A sample active non-admin user for concrete evaluations. -/
def aliceUser : User :=
  { id := 1, email := "a@x.com", username := "alice",
    hashed_password := get_password_hash "Password123!" 0,
    is_active := true, is_superuser := false,
    created_at := 0, updated_at := 0 }

/-- A sample active superuser for concrete evaluations. -/
def adminUser : User :=
  { id := 2, email := "root@x.com", username := "root",
    hashed_password := get_password_hash "RootPass123!" 1,
    is_active := true, is_superuser := true,
    created_at := 0, updated_at := 0 }

/-- C4 (amended): exhaustive case analysis of the Auth Gate.  Failed
verification and an empty verified subject raise 401; a verified
non-empty subject that is no integer literal raises `ValueError` — not
one of the gate's rejections; an integer subject with no matching user
raises 404; an inactive user raises 403; otherwise the gate returns
exactly the stored user record. -/
theorem auth_gate_cases (credentials : TokenStr) (db : List User)
    (now : Nat) :
    (verify_token credentials "access" now = none →
      get_current_user credentials db now = Except.error (PyError.http
        { status_code := 401, detail := "Invalid or expired access token" })) ∧
    (∀ s : String, verify_token credentials "access" now = some s →
      (s = "" →
        get_current_user credentials db now = Except.error (PyError.http
          { status_code := 401, detail := "Invalid or expired access token" })) ∧
      (s ≠ "" → pyInt s = none →
        get_current_user credentials db now =
          Except.error (PyError.valueError "invalid literal for int")) ∧
      (∀ uid : Int, s ≠ "" → pyInt s = some uid →
        (UserService.get_by_id db uid = none →
          get_current_user credentials db now = Except.error (PyError.http
            { status_code := 404, detail := "User not found" })) ∧
        (∀ u : User, UserService.get_by_id db uid = some u →
          (u.is_active = false →
            get_current_user credentials db now = Except.error (PyError.http
              { status_code := 403, detail := "Inactive user" })) ∧
          (u.is_active = true →
            get_current_user credentials db now = Except.ok u)))) := by
  refine ⟨?_, ?_⟩
  · intro h
    simp [get_current_user, h]
  · intro s hs
    refine ⟨?_, ?_, ?_⟩
    · intro hempty
      simp [get_current_user, hs, hempty]
    · intro hne hint
      simp [get_current_user, hs, hne, hint]
    · intro uid hne hint
      refine ⟨?_, ?_⟩
      · intro hget
        simp [get_current_user, hs, hne, hint, hget]
      · intro u hget
        refine ⟨?_, ?_⟩
        · intro hact
          simp [get_current_user, hs, hne, hint, hget, hact]
        · intro hact
          simp [get_current_user, hs, hne, hint, hget, hact]

/-- Witness for C4 (amended): a fresh access token for subject `"1"`
admits `aliceUser` through the gate. -/
theorem auth_gate_cases_witness :
    get_current_user (create_access_token "1" none 0) [aliceUser] 10 =
      Except.ok aliceUser := by
  have h :=
    (((auth_gate_cases (create_access_token "1" none 0) [aliceUser] 10).2
        "1" rfl).2.2 1 (by decide) rfl).2 aliceUser rfl
  exact h.2 rfl

/-- C4 counterexample: a token signed with the server secret whose
subject `"abc"` is not an integer literal passes verification, no user
with that subject exists in the (empty) store, yet the gate raises
`ValueError` instead of the "not found" rejection the claim requires. -/
theorem auth_gate_nonint_subject_counterexample :
    verify_token
        (TokenStr.signed
          { sub := some "abc", type := some "access", exp := 100 }
          settings.SECRET_KEY) "access" 0 = some "abc" ∧
    get_current_user
        (TokenStr.signed
          { sub := some "abc", type := some "access", exp := 100 }
          settings.SECRET_KEY) ([] : List User) 0 =
      Except.error (PyError.valueError "invalid literal for int") ∧
    PyError.valueError "invalid literal for int" ≠
      PyError.http { status_code := 404, detail := "User not found" } := by
  refine ⟨rfl, rfl, by decide⟩

/-- C5: on every endpoint gated by `get_current_active_superuser`
(`GET /users/`, `DELETE /users/{id}`), a non-superuser is rejected with
the 403 privilege error, and a superuser proceeds — `GET /users/`
returning the paginated user list. -/
theorem admin_only_enforcement (db : List User) (skip limit : Nat)
    (uid : Int) (u : User) :
    (u.is_superuser = false →
      list_users db skip limit u = Except.error
        { status_code := 403,
          detail := "Not enough permissions. Superuser access required." } ∧
      delete_user db uid u = Except.error
        { status_code := 403,
          detail := "Not enough permissions. Superuser access required." }) ∧
    (u.is_superuser = true →
      list_users db skip limit u =
        Except.ok (UserService.get_all db skip limit)) := by
  constructor
  · intro h
    constructor
    · simp [list_users, get_current_active_superuser, h]
    · simp [delete_user, get_current_active_superuser, h]
  · intro h
    simp [list_users, get_current_active_superuser, h]

/-- Witness for C5: `aliceUser` (non-admin) is rejected on the list
endpoint, `adminUser` receives the full list. -/
theorem admin_only_enforcement_witness :
    list_users [aliceUser, adminUser] 0 100 aliceUser = Except.error
      { status_code := 403,
        detail := "Not enough permissions. Superuser access required." } ∧
    list_users [aliceUser, adminUser] 0 100 adminUser =
      Except.ok [aliceUser, adminUser] := by
  constructor
  · exact ((admin_only_enforcement [aliceUser, adminUser] 0 100 1
      aliceUser).1 rfl).1
  · have h := (admin_only_enforcement [aliceUser, adminUser] 0 100 1
      adminUser).2 rfl
    rw [h]
    rfl

/-- C6: the login failure for an unknown email and the login failure for
a known email with a non-verifying password are the very same error
value — status 401, detail "Incorrect email or password" — so no
observable output distinguishes the two cases. -/
theorem login_failure_indistinguishable (db : List User)
    (email password : String) (now : Nat)
    (h : UserService.get_by_email db email = none ∨
         ∃ u : User, UserService.get_by_email db email = some u ∧
           verify_password password u.hashed_password = false) :
    login db email password now = Except.error
      { status_code := 401, detail := "Incorrect email or password" } := by
  rcases h with h | ⟨u, hu, hv⟩
  · simp [login, UserService.authenticate, h]
  · simp [login, UserService.authenticate, hu, hv]

/-- Witness for C6: a nonexistent email on an empty store and a wrong
password for `aliceUser` both produce the identical 401 error. -/
theorem login_failure_indistinguishable_witness :
    login [] "a@x.com" "pw12345678" 0 = Except.error
      { status_code := 401, detail := "Incorrect email or password" } ∧
    login [aliceUser] "a@x.com" "WrongPass12!" 0 = Except.error
      { status_code := 401, detail := "Incorrect email or password" } :=
  ⟨login_failure_indistinguishable [] "a@x.com" "pw12345678" 0 (Or.inl rfl),
   login_failure_indistinguishable [aliceUser] "a@x.com" "WrongPass12!" 0
     (Or.inr ⟨aliceUser, rfl, by decide⟩)⟩

/-- C7: `verify_password` is a total Boolean function — the exceptional
path does not exist in the model — and on every malformed digest (one
that is no hash of any password) it returns `false`. -/
theorem verify_password_never_raises (p : String) (s : String) :
    verify_password p (Digest.malformed s) = false :=
  rfl

/-- C8: any digest `get_password_hash` produces verifies against its
original input, whatever salt the hasher drew for the call — even though
distinct salts yield distinct digests for the same password. -/
theorem hash_verify_round_trip (p : String) (s1 s2 : Nat) :
    verify_password p (get_password_hash p s1) = true ∧
    (s1 ≠ s2 → get_password_hash p s1 ≠ get_password_hash p s2) := by
  constructor
  · simp [verify_password, get_password_hash]
  · intro h hc
    injection hc with h1 h2
    exact h h2

/-- Witness for C8 at password `"pw"`, salts `0` and `1`. -/
theorem hash_verify_round_trip_witness :
    verify_password "pw" (get_password_hash "pw" 0) = true ∧
    get_password_hash "pw" 0 ≠ get_password_hash "pw" 1 :=
  ⟨(hash_verify_round_trip "pw" 0 1).1,
   (hash_verify_round_trip "pw" 0 1).2 (by decide)⟩

/-- C9: no success response carrying a user serializes a
`hashed_password` field: the `User` response schema projection (used by
`POST /users/`, `GET /users/`, `GET/PUT /users/{id}`, `GET/PUT /me`) has
no such key for any record, and neither does the user dict inside any
successful login response. -/
theorem no_hashed_password_in_responses (u : User) (db : List User)
    (email password : String) (now : Nat) (resp : LoginResponse)
    (h : login db email password now = Except.ok resp) :
    "hashed_password" ∉ (userProjection u).map Prod.fst ∧
    "hashed_password" ∉ resp.user.map Prod.fst := by
  constructor
  · simp [userProjection]
  · unfold login at h
    cases hauth : UserService.authenticate db email password with
    | none => simp [hauth] at h
    | some user =>
        simp only [hauth] at h
        by_cases hact : user.is_active = false
        · simp [if_pos hact] at h
        · simp only [if_neg hact] at h
          injection h with h2
          subst h2
          simp

/-- The login response `login [aliceUser] "a@x.com" "Password123!" 0`
evaluates to, written out. -/
def aliceLoginResponse : LoginResponse :=
  { access_token := create_access_token "1" none 0,
    refresh_token := create_refresh_token "1" 0,
    token_type := "bearer",
    user := [("id", FieldValue.ofInt 1),
             ("email", FieldValue.ofStr "a@x.com"),
             ("username", FieldValue.ofStr "alice"),
             ("is_active", FieldValue.ofBool true),
             ("is_superuser", FieldValue.ofBool false)] }

/-- Witness for C9 at `aliceUser` and her concrete successful login. -/
theorem no_hashed_password_in_responses_witness :
    "hashed_password" ∉ (userProjection aliceUser).map Prod.fst ∧
    "hashed_password" ∉ aliceLoginResponse.user.map Prod.fst :=
  no_hashed_password_in_responses aliceUser [aliceUser] "a@x.com"
    "Password123!" 0 aliceLoginResponse rfl

/-- C10: `UserService.update` is atomic on conflict — whenever either
duplicate guard raises, the database state when the call ends is the
state it began with — and the guards fire only when the payload carries
a value that differs from the user's current one: a payload repeating
the user's own email and username always gets past both guards. -/
theorem update_atomic_on_conflict (db : List User) (user_id : Int)
    (user_in : UserUpdate) (salt : Nat) :
    (∀ e : HTTPException, ∀ db2 : List User,
      UserService.update db user_id user_in salt = (Except.error e, db2) →
        db2 = db) ∧
    (∀ u : User, UserService.get_by_id db user_id = some u →
      (user_in.email = none ∨ user_in.email = some u.email) →
      (user_in.username = none ∨ user_in.username = some u.username) →
      ∃ r : Option User,
        (UserService.update db user_id user_in salt).1 = Except.ok r) := by
  constructor
  · intro e db2 h
    unfold UserService.update at h
    cases hget : UserService.get_by_id db user_id with
    | none => simp [hget] at h
    | some du =>
        simp only [hget] at h
        by_cases he : emailDup db du user_in
        · rw [if_pos he] at h
          exact (congrArg Prod.snd h).symm
        · rw [if_neg he] at h
          by_cases hn : usernameDup db du user_in
          · rw [if_pos hn] at h
            exact (congrArg Prod.snd h).symm
          · rw [if_neg hn] at h
            simp at h
  · intro u hget hemail husername
    have he : emailDup db u user_in = false := by
      rcases hemail with h | h <;> simp [emailDup, h]
    have hn : usernameDup db u user_in = false := by
      rcases husername with h | h <;> simp [usernameDup, h]
    refine ⟨some (applyUpdate u user_in salt), ?_⟩
    simp [UserService.update, hget, he, hn]

/-- An update payload carrying `adminUser`'s email, a duplicate for
`aliceUser`. -/
def dupEmailPayload : UserUpdate :=
  { email := some "root@x.com", username := none, password := none,
    is_active := none, is_superuser := none }

/-- An update payload repeating `aliceUser`'s own email and username. -/
def ownFieldsPayload : UserUpdate :=
  { email := some "a@x.com", username := some "alice", password := none,
    is_active := none, is_superuser := none }

/-- Witness for C10: updating `aliceUser` with `adminUser`'s email raises
the duplicate error and leaves the store untouched; repeating her own
email and username gets past both guards. -/
theorem update_atomic_on_conflict_witness :
    ([aliceUser, adminUser] : List User) = [aliceUser, adminUser] ∧
    ∃ r : Option User,
      (UserService.update [aliceUser, adminUser] 1 ownFieldsPayload 5).1 =
        Except.ok r :=
  ⟨(update_atomic_on_conflict [aliceUser, adminUser] 1 dupEmailPayload 5).1
      { status_code := 400, detail := "Email already registered" }
      [aliceUser, adminUser] rfl,
   (update_atomic_on_conflict [aliceUser, adminUser] 1 ownFieldsPayload 5).2
      aliceUser rfl (Or.inr rfl) (Or.inr rfl)⟩
